import Mathlib

/-!
Shallow embedding of the WeChat credential-and-signing core
(`wechat/param.go` of the gopay repository) and verification of the
frozen claims about it.

External effects (file system, PKCS#12 decoding, X.509 parsing, the hash
primitives from Go's standard library, XML marshalling and the HTTP
transport) are modelled as explicit environments: the source calls them
through imports, so theorems quantify over the environment and witnesses
instantiate it with concrete functions.
-/

namespace Wechat

/-- A Go `interface\x7b\x7d` argument of the credential loader: either the nil
interface, a `string` file path, a `[]byte` content, or a value of any
other dynamic type (the `default` arm of the source's type switches).
Bytes are modelled as `List Nat` (each entry a byte value). -/
inductive CertInput
| nil
| str (s : String)
| bytes (b : List Nat)
| other
deriving DecidableEq, Repr

/-- `gotil.NULL`, the empty-string constant used by the source. -/
def NULL : String := ""

/-- Modelled from the spec: the two selectable signature-algorithm
identifiers (`SignType_MD5`, `SignType_HMAC_SHA256` live in a constants
file of this repository that is not under src/; the spec names the two
variants MD5 and HMAC-SHA256). -/
def SignType_MD5 : String := "MD5"

/-- Modelled from the spec: see `SignType_MD5`. -/
def SignType_HMAC_SHA256 : String := "HMAC-SHA256"

/-- Modelled from the spec: the fixed sandbox key-retrieval endpoint URL
(a constant of this repository not under src/; its concrete value is
irrelevant to the claims). -/
def sandboxGetSignKey : String := "sandboxnew/pay/getsignkey"

/-- A Go `error` value as the source builds them: `errors.New`-style
messages, `fmt.Errorf("...%w", err)` wrappings, and a marker for a
runtime panic (failed type assertion; unreachable via `AddCertFilePath`
because `checkCertFilePath` rejects unsupported dynamic types first). -/
inductive GoErr
| simple (msg : String)
| wrap (pre : String) (cause : GoErr)
| panicked
deriving DecidableEq, Repr

/-- An abstract `tls.Certificate` (its parsed content is opaque to this
core; the loader only stores and copies it whole). -/
structure TLSCertificate where
  id : Nat
deriving DecidableEq, Repr

/-- The fields of `tls.Config` that the source sets. -/
structure TLSConfig where
  Certificates : List TLSCertificate
  InsecureSkipVerify : Bool
deriving DecidableEq, Repr

/-- The fields of the `Client` that `param.go` touches: the merchant id
(PKCS#12 passphrase) and the cached certificate. The mutex only guards
this state; calls themselves are modelled sequentially. -/
structure Client where
  MchId : String
  certificate : Option TLSCertificate
deriving DecidableEq, Repr

/-- Environment for the loader's external collaborators:
`readFile` is `ioutil.ReadFile`; `pkcs12ToPEM` is `pkcs12.ToPEM`
composed with `pem.EncodeToMemory` on each returned block (it yields the
list of encoded blocks); `x509KeyPair` is `tls.X509KeyPair`. -/
structure FsEnv where
  readFile : String → Except GoErr (List Nat)
  pkcs12ToPEM : List Nat → String → Except GoErr (List (List Nat))
  x509KeyPair : List Nat → List Nat → Except GoErr TLSCertificate

/-- `checkCertFilePath`'s per-entry validation of the cert/key map
(param.go:152-165): a string must be non-empty, a byte slice must be
non-empty, any other dynamic type is a type error. -/
def checkOnePem (varName : String) (v : CertInput) : Option String :=
  match v with
  | CertInput.str s => if s = NULL then some (varName ++ " is empty") else none
  | CertInput.bytes b => if b.length = 0 then some (varName ++ " is empty") else none
  | _ => some (varName ++ " type error")

/-- `checkCertFilePath` (param.go:146-184). The source iterates a
two-entry Go map in unspecified order; whether an error is returned is
order-independent, and we fix the order cert before key. `none` means
the nil error. -/
def checkCertFilePath (certFilePath keyFilePath pkcs12FilePath : CertInput) : Option String :=
  if certFilePath = CertInput.nil ∧ keyFilePath = CertInput.nil ∧
      pkcs12FilePath = CertInput.nil then
    none
  else if certFilePath ≠ CertInput.nil ∧ keyFilePath ≠ CertInput.nil then
    match checkOnePem "certFilePath" certFilePath with
    | some e => some e
    | none => checkOnePem "keyFilePath" keyFilePath
  else if pkcs12FilePath ≠ CertInput.nil then
    match pkcs12FilePath with
    | CertInput.str s => if s = NULL then some "pkcs12FilePath is empty" else none
    | CertInput.bytes b => if b.length = 0 then some "pkcs12FilePath is empty" else none
    | _ => some "pkcs12FilePath type error"
  else
    some "certFilePath keyFilePath must all nil or all not nil"

/-- One arm of the PEM-pair branch of `addCertConfig`
(param.go:102-111): a `[]byte` input is used directly and leaves the
shared `err` variable untouched; a `string` input is read from disk,
assigning both the pem bytes and `err` (so a successful read resets a
previous read error to nil, and a failed read leaves a nil slice). A
failed type assertion panics, modelled as `Except.error GoErr.panicked`
that aborts the whole call. -/
def resolvePemInput (env : FsEnv) (f : CertInput) (err0 : Option GoErr) :
    Except GoErr (Option (List Nat) × Option GoErr) :=
  match f with
  | CertInput.bytes b => Except.ok (some b, err0)
  | CertInput.str s =>
    match env.readFile s with
    | Except.ok b => Except.ok (some b, none)
    | Except.error e => Except.ok (none, some e)
  | _ => Except.error GoErr.panicked

/-- Go's `append` on a possibly-nil byte slice: appending nothing to a
nil slice keeps it nil (param.go:128-130). -/
def appendBytes (acc : Option (List Nat)) (b : List Nat) : Option (List Nat) :=
  match acc, b with
  | none, [] => none
  | none, b => some b
  | some a, b => some (a ++ b)

/-- The pfx-data resolution of the PKCS#12 branch (param.go:116-123):
bytes used directly; a path is read, a read failure returning
immediately wrapped as `ioutil.ReadFile：`. -/
def pkcs12PfxData (env : FsEnv) (pkcs12File : CertInput) : Except GoErr (List Nat) :=
  match pkcs12File with
  | CertInput.bytes b => Except.ok b
  | CertInput.str s =>
    match env.readFile s with
    | Except.ok b => Except.ok b
    | Except.error e => Except.error (GoErr.wrap "ioutil.ReadFile：" e)
  | _ => Except.error GoErr.panicked

/-- Computation of `certPem`/`keyPem` in `addCertConfig`
(param.go:97-132). In the PEM-pair branch the single `err` variable is
threaded through both resolutions and checked once at line 112: a cert
read error followed by a successful key read is erased. In the PKCS#12
branch the decoded blocks are concatenated and reused as both cert and
key material (param.go:128-131). If neither branch applies both pems
stay nil. -/
def pemMaterial (env : FsEnv) (mchId : String) (certFile keyFile pkcs12File : CertInput) :
    Except GoErr (Option (List Nat) × Option (List Nat)) :=
  if certFile ≠ CertInput.nil ∧ keyFile ≠ CertInput.nil then
    match resolvePemInput env certFile none with
    | Except.error e => Except.error e
    | Except.ok (certPem, err1) =>
      match resolvePemInput env keyFile err1 with
      | Except.error e => Except.error e
      | Except.ok (keyPem, err2) =>
        match err2 with
        | some e => Except.error (GoErr.wrap "ioutil.ReadFile：" e)
        | none => Except.ok (certPem, keyPem)
  else if pkcs12File ≠ CertInput.nil then
    match pkcs12PfxData env pkcs12File with
    | Except.error e => Except.error e
    | Except.ok pfxData =>
      match env.pkcs12ToPEM pfxData mchId with
      | Except.error e => Except.error (GoErr.wrap "pkcs12.ToPEM：" e)
      | Except.ok blocks =>
        let keyPem := blocks.foldl appendBytes none
        Except.ok (keyPem, keyPem)
  else
    Except.ok (none, none)

/-- The part of `addCertConfig` after the cached-credential early
return (param.go:97-143): compute the pem material and, when both pems
are non-nil, parse them with `tls.X509KeyPair`; in every remaining case
return the `cert files must all nil or all not nil` error of line
143. -/
def addCertConfigLoad (env : FsEnv) (mchId : String) (certFile keyFile pkcs12File : CertInput) :
    Except GoErr TLSConfig :=
  match pemMaterial env mchId certFile keyFile pkcs12File with
  | Except.error e => Except.error e
  | Except.ok (certPem, keyPem) =>
    match certPem, keyPem with
    | some cp, some kp =>
      match env.x509KeyPair cp kp with
      | Except.error e => Except.error (GoErr.wrap "tls.LoadX509KeyPair：" e)
      | Except.ok certificate =>
        Except.ok { Certificates := [certificate], InsecureSkipVerify := true }
    | _, _ => Except.error (GoErr.simple "cert files must all nil or all not nil")

/-- `addCertConfig` (param.go:84-144). With all three inputs nil and a
cached certificate, a config wrapping the cached certificate is
returned (param.go:85-95); in every other case — including all three
inputs nil with an empty cache — control falls through to the loading
part. -/
def addCertConfig (env : FsEnv) (w : Client) (certFile keyFile pkcs12File : CertInput) :
    Except GoErr TLSConfig :=
  if certFile = CertInput.nil ∧ keyFile = CertInput.nil ∧ pkcs12File = CertInput.nil then
    match w.certificate with
    | some c => Except.ok { Certificates := [c], InsecureSkipVerify := true }
    | none => addCertConfigLoad env w.MchId certFile keyFile pkcs12File
  else addCertConfigLoad env w.MchId certFile keyFile pkcs12File

/-- `AddCertFilePath` (param.go:51-63): validate, build the config, then
store `config.Certificates[0]` in the cache. Returns the updated client
and the Go error (`none` is nil). A validation error from
`checkCertFilePath` is an `errors.New`/`fmt.Errorf` message, modelled
as `GoErr.simple`. -/
def AddCertFilePath (env : FsEnv) (w : Client)
    (certFilePath keyFilePath pkcs12FilePath : CertInput) : Client × Option GoErr :=
  match checkCertFilePath certFilePath keyFilePath pkcs12FilePath with
  | some msg => (w, some (GoErr.simple msg))
  | none =>
    match addCertConfig env w certFilePath keyFilePath pkcs12FilePath with
    | Except.error e => (w, some e)
    | Except.ok config => ({ w with certificate := config.Certificates.head? }, none)

/-- UTF-8 encoding of one code point, as Go's `[]byte(string)` produces. -/
def utf8EncodeCharNat (c : Nat) : List Nat :=
  if c < 128 then [c]
  else if c < 2048 then [192 + c / 64, 128 + c % 64]
  else if c < 65536 then [224 + c / 4096, 128 + c / 64 % 64, 128 + c % 64]
  else [240 + c / 262144, 128 + c / 4096 % 64, 128 + c / 64 % 64, 128 + c % 64]

/-- Go's `[]byte(s)`: the UTF-8 bytes of the string. -/
def strBytes (s : String) : List Nat :=
  s.data.flatMap (fun c => utf8EncodeCharNat c.toNat)

/-- Lowercase hex encoding of a byte list, as `hex.EncodeToString`. -/
def hexDigit (n : Nat) : Char :=
  if n < 10 then Char.ofNat (48 + n) else Char.ofNat (87 + n)

/-- `hex.EncodeToString` on a digest. -/
def hexEncode (bs : List Nat) : String :=
  String.mk (bs.foldr (fun b acc => hexDigit (b / 16 % 16) :: hexDigit (b % 16) :: acc) [])

/-- `strings.ToUpper` restricted to what the source feeds it (ASCII hex
digits): uppercase every character. -/
def toUpperStr (s : String) : String := String.mk (s.data.map Char.toUpper)

/-- The two hash primitives the source imports from Go's standard
library (`crypto/md5`, `crypto/hmac` + `crypto/sha256`), as an abstract
environment: each maps a message (and for HMAC a key) to a digest. -/
structure HashEnv where
  md5 : List Nat → List Nat
  hmacSha256 : List Nat → List Nat → List Nat

/-- `gopay.BodyMap`: the request-parameter mapping. Code of this
repository outside src/ (the `gopay` root package); modelled from the
spec as a name-to-string-value mapping whose insertion order is
irrelevant (the encoder sorts). `Set` replaces any existing entry. -/
abbrev BodyMap := List (String × String)

/-- `BodyMap.Set`: map-style insertion (replace the key if present). -/
def BodyMap.Set (bm : BodyMap) (k v : String) : BodyMap :=
  bm.filter (fun kv => kv.1 != k) ++ [(k, v)]

/-- Insertion into a key-sorted association list (lexicographic on the
key), used to model the canonical sort of the signing string. -/
def insertSorted (kv : String × String) : List (String × String) → List (String × String)
  | [] => [kv]
  | x :: xs => if kv.1 < x.1 then kv :: x :: xs else x :: insertSorted kv xs

/-- Lexicographic key sort of a parameter list. -/
def sortByKey (l : List (String × String)) : List (String × String) :=
  l.foldr insertSorted []

/-- Modelled from the spec: `gopay.BodyMap.EncodeWeChatSignParams` is
code of this repository outside src/. Spec §4.3: keys sorted
lexicographically, key-value pairs joined with `=` and `&`, empty-valued
and signature-named parameters excluded, the secret key appended as a
trailing `key=<key>` term. -/
def EncodeWeChatSignParams (bm : BodyMap) (apiKey : String) : String :=
  let ps := sortByKey (bm.filter (fun kv => kv.2 != NULL && kv.1 != "sign"))
  String.intercalate "&" (ps.map (fun kv => kv.1 ++ "=" ++ kv.2) ++ ["key=" ++ apiKey])

/-- `getReleaseSign` (param.go:187-196): HMAC-SHA256 keyed with the api
key when `signType` equals `SignType_HMAC_SHA256`, MD5 otherwise; the
digest of the canonical signing string, rendered as uppercase hex. -/
def getReleaseSign (he : HashEnv) (apiKey signType : String) (bm : BodyMap) : String :=
  let msg := strBytes (EncodeWeChatSignParams bm apiKey)
  let digest :=
    if signType = SignType_HMAC_SHA256 then he.hmacSha256 (strBytes apiKey) msg
    else he.md5 msg
  toUpperStr (hexEncode digest)

/-- The parsed reply of the sandbox key endpoint (`getSignKeyResponse`;
declared elsewhere in this repository, fields per spec §6:
`return_code`, `return_msg`, `sandbox_signkey`). -/
structure getSignKeyResponse where
  ReturnCode : String
  ReturnMsg : String
  SandboxSignkey : String
deriving DecidableEq, Repr

/-- Environment for the sandbox exchange's external collaborators:
`xmlMarshal` is `xml.Marshal` on the request body; `post` is the
`xhttp` POST + XML decode into `getSignKeyResponse`, returning the
decoded struct and the collected error list (`errs`). -/
structure NetEnv where
  xmlMarshal : BodyMap → Except GoErr String
  post : String → String → getSignKeyResponse × List GoErr

/-- `generateXml` (param.go:244-250): marshal the body map; on a marshal
error return `gotil.NULL` (the empty string), discarding the error. -/
def generateXml (env : NetEnv) (bm : BodyMap) : String :=
  match env.xmlMarshal bm with
  | Except.error _ => NULL
  | Except.ok s => s

/-- The request map built by `getSanBoxSignKey` (param.go:227-230). -/
def sanBoxKeyReqs (mchId nonceStr sign : String) : BodyMap :=
  BodyMap.Set (BodyMap.Set (BodyMap.Set ([] : BodyMap) "mch_id" mchId) "nonce_str" nonceStr)
    "sign" sign

/-- `getSanBoxSignKey` (param.go:226-241): one POST of the XML body; if
the transport/decode error list is non-empty return its first error; if
the decoded `return_code` is exactly `FAIL` return an error carrying
`return_msg`; otherwise return `sandbox_signkey`. -/
def getSanBoxSignKey (env : NetEnv) (mchId nonceStr sign : String) : Except GoErr String :=
  let reqs := sanBoxKeyReqs mchId nonceStr sign
  let r := env.post sandboxGetSignKey (generateXml env reqs)
  match r.2 with
  | e :: _ => Except.error e
  | [] =>
    if r.1.ReturnCode = "FAIL" then Except.error (GoErr.simple r.1.ReturnMsg)
    else Except.ok r.1.SandboxSignkey

/-- The `\x7bmch_id, nonce_str\x7d` map that `getSanBoxKey` signs
(param.go:215-217). -/
def sanBoxSignBase (mchId nonceStr : String) : BodyMap :=
  BodyMap.Set (BodyMap.Set ([] : BodyMap) "mch_id" mchId) "nonce_str" nonceStr

/-- `getSanBoxKey` (param.go:214-223): sign the base map with
`getReleaseSign` and exchange it for the sandbox key. -/
def getSanBoxKey (he : HashEnv) (env : NetEnv) (mchId nonceStr apiKey signType : String) :
    Except GoErr String :=
  getSanBoxSignKey env mchId nonceStr (getReleaseSign he apiKey signType (sanBoxSignBase mchId nonceStr))

/-- `getSignBoxSign` (param.go:199-211): fetch the sandbox key (signing
the request with `SignType_MD5`), then MD5-sign the caller's body map
with the sandbox key. The random 32-character nonce produced by
`gotil.GetRandomString(32)` enters as the `nonceStr` argument. -/
def getSignBoxSign (he : HashEnv) (env : NetEnv) (mchId apiKey nonceStr : String)
    (bm : BodyMap) : Except GoErr String :=
  match getSanBoxKey he env mchId nonceStr apiKey SignType_MD5 with
  | Except.error e => Except.error e
  | Except.ok sandBoxApiKey =>
    Except.ok (toUpperStr (hexEncode (he.md5 (strBytes (EncodeWeChatSignParams bm sandBoxApiKey)))))

/-- A file system where every read fails, PKCS#12 decoding fails and
key-pair parsing succeeds; used to instantiate theorems. -/
def emptyFs : FsEnv :=
  ⟨fun _ => Except.error (GoErr.simple "no such file"),
   fun _ _ => Except.error (GoErr.simple "bad pkcs12"),
   fun _ _ => Except.ok ⟨0⟩⟩

/-- A file system where reads fail but PKCS#12 decoding and key-pair
parsing succeed. -/
def okFs : FsEnv :=
  ⟨fun _ => Except.error (GoErr.simple "no such file"),
   fun _ _ => Except.ok [[1]],
   fun _ _ => Except.ok ⟨7⟩⟩

/-- A file system where reading `key.pem` succeeds and every other read
(in particular `cert.pem`) fails. -/
def certReadFailFs : FsEnv :=
  ⟨fun s => if s = "key.pem" then Except.ok [1]
            else Except.error (GoErr.simple "open cert.pem: no such file or directory"),
   fun _ _ => Except.error (GoErr.simple "bad pkcs12"),
   fun _ _ => Except.ok ⟨7⟩⟩

/-- A client with merchant id `m` and an empty credential cache. -/
def w0 : Client := ⟨"m", none⟩

/-- A client with merchant id `m` and a cached certificate. -/
def wCached : Client := ⟨"m", some ⟨3⟩⟩

/-- A concrete hash environment whose two digests differ. -/
def dummyHashEnv : HashEnv := ⟨fun _ => [0], fun _ _ => [1]⟩

/-- A transport whose reply is `return_code=FAIL` with message `x`. -/
def failNet (x : String) : NetEnv :=
  ⟨fun _ => Except.ok "ok", fun _ _ => (⟨"FAIL", x, ""⟩, [])⟩

/-- A transport whose reply is a successful response carrying key `k`. -/
def keyNet (k : String) : NetEnv :=
  ⟨fun _ => Except.ok "ok", fun _ _ => (⟨"SUCCESS", "", k⟩, [])⟩

/-- A transport that fails at the transport layer with error `e`. -/
def errNet (e : GoErr) : NetEnv :=
  ⟨fun _ => Except.ok "ok", fun _ _ => (⟨"", "", ""⟩, [e])⟩

/-- A transport whose XML marshalling always fails and whose reply
carries key `K`. -/
def badMarshalNet : NetEnv :=
  ⟨fun _ => Except.error (GoErr.simple "xml marshal failed"),
   fun _ _ => (⟨"", "", "K"⟩, [])⟩

/-- A transport whose reply has an empty `return_code` and an empty
`sandbox_signkey`. -/
def emptyCodeNet : NetEnv :=
  ⟨fun _ => Except.ok "ok", fun _ _ => (⟨"", "", ""⟩, [])⟩

/-- `true` when a loader input is present and non-empty in the sense of
`checkCertFilePath`: a non-empty string, a non-empty byte slice, or a
value of an unsupported dynamic type (present but invalid). -/
def nonEmptyInput : CertInput → Bool
  | CertInput.nil => false
  | CertInput.str s => s != NULL
  | CertInput.bytes b => b.length != 0
  | CertInput.other => true

/-- C9: every TLS config `addCertConfig` hands out — whether built from
a PEM pair, from a PKCS#12 archive, or wrapped around the cached
credential — has `InsecureSkipVerify` set to `true`. -/
theorem addCertConfig_insecure_skip_verify (env : FsEnv) (w : Client)
    (certFile keyFile pkcs12File : CertInput) (cfg : TLSConfig)
    (h : addCertConfig env w certFile keyFile pkcs12File = Except.ok cfg) :
    cfg.InsecureSkipVerify = true := by
  have load : ∀ mchId cf kf pf, addCertConfigLoad env mchId cf kf pf = Except.ok cfg →
      cfg.InsecureSkipVerify = true := by
    intro mchId cf kf pf hl
    unfold addCertConfigLoad at hl
    split at hl
    · exact Except.noConfusion hl
    · split at hl
      · split at hl
        · exact Except.noConfusion hl
        · cases Except.ok.inj hl; rfl
      · exact Except.noConfusion hl
  unfold addCertConfig at h
  split at h
  · split at h
    · cases Except.ok.inj h; rfl
    · exact load _ _ _ _ h
  · exact load _ _ _ _ h

/-- Witness for C9 at the cached-credential site. -/
theorem addCertConfig_insecure_skip_verify_witness :
    addCertConfig emptyFs wCached CertInput.nil CertInput.nil CertInput.nil
      = Except.ok ⟨[⟨3⟩], true⟩ ∧
    TLSConfig.InsecureSkipVerify ⟨[⟨3⟩], true⟩ = true :=
  ⟨rfl, addCertConfig_insecure_skip_verify emptyFs wCached CertInput.nil CertInput.nil
    CertInput.nil ⟨[⟨3⟩], true⟩ rfl⟩

/-- C5: on a single exchange, `getSanBoxSignKey` (1) fails with an error
carrying exactly the provider's `return_msg` when the decoded reply has
`return_code = FAIL`; (2) returns the decoded `sandbox_signkey`
unchanged on any non-`FAIL` reply; (3) propagates a transport/decode
error list by returning its first error; and (4) its result is
determined by the single POST of the one request body — no internal
retry consults the transport elsewhere. -/
theorem getSanBoxSignKey_spec (env : NetEnv) (mchId nonceStr sign : String) :
    (∀ resp : getSignKeyResponse,
      env.post sandboxGetSignKey (generateXml env (sanBoxKeyReqs mchId nonceStr sign))
          = (resp, []) →
      resp.ReturnCode = "FAIL" →
      getSanBoxSignKey env mchId nonceStr sign = Except.error (GoErr.simple resp.ReturnMsg)) ∧
    (∀ resp : getSignKeyResponse,
      env.post sandboxGetSignKey (generateXml env (sanBoxKeyReqs mchId nonceStr sign))
          = (resp, []) →
      resp.ReturnCode ≠ "FAIL" →
      getSanBoxSignKey env mchId nonceStr sign = Except.ok resp.SandboxSignkey) ∧
    (∀ (resp : getSignKeyResponse) (e : GoErr) (es : List GoErr),
      env.post sandboxGetSignKey (generateXml env (sanBoxKeyReqs mchId nonceStr sign))
          = (resp, e :: es) →
      getSanBoxSignKey env mchId nonceStr sign = Except.error e) ∧
    (∀ env' : NetEnv,
      env'.xmlMarshal (sanBoxKeyReqs mchId nonceStr sign)
          = env.xmlMarshal (sanBoxKeyReqs mchId nonceStr sign) →
      (∀ body : String, env'.post sandboxGetSignKey body = env.post sandboxGetSignKey body) →
      getSanBoxSignKey env' mchId nonceStr sign = getSanBoxSignKey env mchId nonceStr sign) := by
  refine ⟨?_, ?_, ?_, ?_⟩
  · intro resp hpost hfail
    simp only [getSanBoxSignKey, hpost]
    simp [hfail]
  · intro resp hpost hok
    simp only [getSanBoxSignKey, hpost]
    simp [hok]
  · intro resp e es hpost
    simp only [getSanBoxSignKey, hpost]
  · intro env' hm hp
    have hx : generateXml env' (sanBoxKeyReqs mchId nonceStr sign)
        = generateXml env (sanBoxKeyReqs mchId nonceStr sign) := by
      unfold generateXml
      rw [hm]
    simp only [getSanBoxSignKey, hx, hp]

/-- Witness for C5 on a transport replying `return_code=FAIL`,
`return_msg=boom`. -/
theorem getSanBoxSignKey_spec_witness :
    getSanBoxSignKey (failNet "boom") "m" "n" "s" = Except.error (GoErr.simple "boom") :=
  (getSanBoxSignKey_spec (failNet "boom") "m" "n" "s").1 ⟨"FAIL", "boom", ""⟩ rfl rfl

/-- C10: `getSanBoxSignKey` treats only a `return_code` exactly equal to
`FAIL` as provider-reported failure; for any other value (empty or
otherwise, whether or not it is `SUCCESS`) the decoded
`sandbox_signkey` — possibly empty — is returned. -/
theorem getSanBoxSignKey_only_FAIL_is_failure (env : NetEnv) (mchId nonceStr sign : String) :
    (∀ resp : getSignKeyResponse,
      env.post sandboxGetSignKey (generateXml env (sanBoxKeyReqs mchId nonceStr sign))
          = (resp, []) →
      resp.ReturnCode = "FAIL" →
      getSanBoxSignKey env mchId nonceStr sign = Except.error (GoErr.simple resp.ReturnMsg)) ∧
    (∀ resp : getSignKeyResponse,
      env.post sandboxGetSignKey (generateXml env (sanBoxKeyReqs mchId nonceStr sign))
          = (resp, []) →
      resp.ReturnCode ≠ "FAIL" →
      getSanBoxSignKey env mchId nonceStr sign = Except.ok resp.SandboxSignkey) := by
  constructor
  · intro resp hpost hfail
    simp only [getSanBoxSignKey, hpost]
    simp [hfail]
  · intro resp hpost hok
    simp only [getSanBoxSignKey, hpost]
    simp [hok]

/-- Witness for C10 on a reply whose `return_code` and key are both
empty strings: the call succeeds with the empty key. -/
theorem getSanBoxSignKey_only_FAIL_is_failure_witness :
    getSanBoxSignKey emptyCodeNet "m" "n" "s" = Except.ok "" :=
  (getSanBoxSignKey_only_FAIL_is_failure emptyCodeNet "m" "n" "s").2 ⟨"", "", ""⟩ rfl
    (by decide)

/-- C6: the signature `getSignBoxSign` sends in the sandbox key request
is always the MD5 one: the whole computation never consults the
HMAC-SHA256 primitive (replacing it changes nothing), and the key
request it issues through `getSanBoxKey` with the hard-coded
`SignType_MD5` carries the uppercase-hex MD5 digest of the canonical
encoding of the merchant-id/nonce map under the real api key. -/
theorem getSignBoxSign_always_md5 (he : HashEnv) (g : List Nat → List Nat → List Nat)
    (env : NetEnv) (mchId apiKey nonceStr : String) (bm : BodyMap) :
    getSignBoxSign ⟨he.md5, g⟩ env mchId apiKey nonceStr bm
      = getSignBoxSign he env mchId apiKey nonceStr bm ∧
    getSanBoxKey he env mchId nonceStr apiKey SignType_MD5
      = getSanBoxSignKey env mchId nonceStr
          (toUpperStr (hexEncode (he.md5 (strBytes
            (EncodeWeChatSignParams (sanBoxSignBase mchId nonceStr) apiKey))))) :=
  ⟨rfl, rfl⟩

/-- C3 counterexample: an unrecognized `signType` such as `SHA1` is not
rejected; `getReleaseSign` silently computes the MD5 digest for it
(identical to selecting `SignType_MD5` and different from selecting
`SignType_HMAC_SHA256` whenever the two digests differ). -/
theorem unknown_signType_falls_back_to_md5 :
    getReleaseSign dummyHashEnv "k" "SHA1" []
      = getReleaseSign dummyHashEnv "k" SignType_MD5 [] ∧
    getReleaseSign dummyHashEnv "k" "SHA1" []
      ≠ getReleaseSign dummyHashEnv "k" SignType_HMAC_SHA256 [] := by
  constructor
  · rfl
  · decide

/-- C3 (amended): `getReleaseSign` uses HMAC-SHA256 exactly when
`signType` equals `SignType_HMAC_SHA256`, uses MD5 when `SignType_MD5`
is selected, and silently falls back to MD5 for every other `signType`
value; no third algorithm is ever used. -/
theorem getReleaseSign_algorithm_selection (he : HashEnv) (apiKey : String) (bm : BodyMap) :
    getReleaseSign he apiKey SignType_HMAC_SHA256 bm
      = toUpperStr (hexEncode (he.hmacSha256 (strBytes apiKey)
          (strBytes (EncodeWeChatSignParams bm apiKey)))) ∧
    getReleaseSign he apiKey SignType_MD5 bm
      = toUpperStr (hexEncode (he.md5 (strBytes (EncodeWeChatSignParams bm apiKey)))) ∧
    ∀ signType : String, signType ≠ SignType_HMAC_SHA256 →
      getReleaseSign he apiKey signType bm
        = toUpperStr (hexEncode (he.md5 (strBytes (EncodeWeChatSignParams bm apiKey)))) := by
  refine ⟨rfl, rfl, ?_⟩
  intro signType hs
  simp only [getReleaseSign]
  rw [if_neg hs]

/-- Witness for C3 (amended) at the unrecognized value `SHA1`. -/
theorem getReleaseSign_algorithm_selection_witness :
    getReleaseSign dummyHashEnv "k" "SHA1" []
      = toUpperStr (hexEncode (dummyHashEnv.md5 (strBytes (EncodeWeChatSignParams [] "k")))) :=
  (getReleaseSign_algorithm_selection dummyHashEnv "k" []).2.2 "SHA1" (by decide)

/-- C4 counterexample: with all three inputs nil and an empty cache the
loader itself returns the `cert files must all nil or all not nil`
error — it is not a silent no-op leaving the error to callers. -/
theorem all_nil_empty_cache_counterexample :
    addCertConfig emptyFs w0 CertInput.nil CertInput.nil CertInput.nil
      = Except.error (GoErr.simple "cert files must all nil or all not nil") ∧
    AddCertFilePath emptyFs w0 CertInput.nil CertInput.nil CertInput.nil
      = (w0, some (GoErr.simple "cert files must all nil or all not nil")) :=
  ⟨rfl, rfl⟩

/-- C4 (amended): the all-nil invocation reuses the cached credential
when one is cached; with an empty cache it returns the configuration
error `cert files must all nil or all not nil` from inside
`addCertConfig` (and `AddCertFilePath` surfaces it, leaving the client
unchanged). -/
theorem all_nil_invocation_behavior (env : FsEnv) (mchId : String) :
    (∀ c : TLSCertificate,
      addCertConfig env ⟨mchId, some c⟩ CertInput.nil CertInput.nil CertInput.nil
        = Except.ok ⟨[c], true⟩) ∧
    addCertConfig env ⟨mchId, none⟩ CertInput.nil CertInput.nil CertInput.nil
      = Except.error (GoErr.simple "cert files must all nil or all not nil") ∧
    AddCertFilePath env ⟨mchId, none⟩ CertInput.nil CertInput.nil CertInput.nil
      = (⟨mchId, none⟩, some (GoErr.simple "cert files must all nil or all not nil")) :=
  ⟨fun _ => rfl, rfl, rfl⟩

/-- C8 counterexample: an `xml.Marshal` failure while building the
sandbox key request body is silently swallowed by `generateXml`
(replaced by the empty string) and the exchange proceeds — here all the
way to success — instead of returning the failure to the caller. -/
theorem xml_marshal_error_swallowed :
    badMarshalNet.xmlMarshal (sanBoxKeyReqs "m" "n" "s")
      = Except.error (GoErr.simple "xml marshal failed") ∧
    generateXml badMarshalNet (sanBoxKeyReqs "m" "n" "s") = NULL ∧
    getSanBoxSignKey badMarshalNet "m" "n" "s" = Except.ok "K" :=
  ⟨rfl, rfl, rfl⟩

/-- C8 (amended): `generateXml` discards an XML-marshalling failure and
returns the empty string in its place; the other failures inside the
sandbox key exchange — transport/decode errors and a provider-reported
`FAIL` — are returned to the caller. -/
theorem failures_returned_except_marshal :
    (∀ (env : NetEnv) (bm : BodyMap) (e : GoErr),
      env.xmlMarshal bm = Except.error e → generateXml env bm = NULL) ∧
    (∀ (env : NetEnv) (mchId nonceStr sign : String) (resp : getSignKeyResponse)
        (e : GoErr) (es : List GoErr),
      env.post sandboxGetSignKey (generateXml env (sanBoxKeyReqs mchId nonceStr sign))
          = (resp, e :: es) →
      getSanBoxSignKey env mchId nonceStr sign = Except.error e) ∧
    (∀ (env : NetEnv) (mchId nonceStr sign : String) (resp : getSignKeyResponse),
      env.post sandboxGetSignKey (generateXml env (sanBoxKeyReqs mchId nonceStr sign))
          = (resp, []) →
      resp.ReturnCode = "FAIL" →
      getSanBoxSignKey env mchId nonceStr sign
        = Except.error (GoErr.simple resp.ReturnMsg)) := by
  refine ⟨?_, ?_, ?_⟩
  · intro env bm e hm
    unfold generateXml
    rw [hm]
  · intro env mchId nonceStr sign resp e es hpost
    simp only [getSanBoxSignKey, hpost]
  · intro env mchId nonceStr sign resp hpost hfail
    simp only [getSanBoxSignKey, hpost]
    simp [hfail]

/-- Witness for C8 (amended): a concrete marshal failure is replaced by
the empty string. -/
theorem failures_returned_except_marshal_witness :
    generateXml badMarshalNet (sanBoxKeyReqs "a" "b" "c") = NULL :=
  failures_returned_except_marshal.1 badMarshalNet (sanBoxKeyReqs "a" "b" "c")
    (GoErr.simple "xml marshal failed") rfl

/-- C1 counterexample: PKCS#12 bytes supplied together with a full PEM
pair pass validation, and registration loads a credential — no
`ConfigurationError` is raised. -/
theorem pkcs12_with_pem_loads_credential :
    checkCertFilePath (CertInput.bytes [1]) (CertInput.bytes [2]) (CertInput.bytes [3]) = none ∧
    AddCertFilePath okFs w0 (CertInput.bytes [1]) (CertInput.bytes [2]) (CertInput.bytes [3])
      = (⟨"m", some ⟨7⟩⟩, none) :=
  ⟨rfl, rfl⟩

/-- C1 (amended): combining PKCS#12 with PEM inputs is never rejected:
with both PEM inputs present, validation and loading behave exactly as
if no PKCS#12 were given (the archive is ignored); with at most one PEM
input present alongside a PKCS#12, they behave exactly as if only the
PKCS#12 were given (the lone PEM input is ignored). -/
theorem pkcs12_with_pem_not_rejected (env : FsEnv) (w : Client) (cert key pf : CertInput) :
    (cert ≠ CertInput.nil → key ≠ CertInput.nil →
      checkCertFilePath cert key pf = checkCertFilePath cert key CertInput.nil ∧
      addCertConfig env w cert key pf = addCertConfig env w cert key CertInput.nil) ∧
    (pf ≠ CertInput.nil → (cert = CertInput.nil ∨ key = CertInput.nil) →
      checkCertFilePath cert key pf = checkCertFilePath CertInput.nil CertInput.nil pf ∧
      addCertConfig env w cert key pf = addCertConfig env w CertInput.nil CertInput.nil pf) := by
  constructor
  · intro hc hk
    have h1 : ¬(cert = CertInput.nil ∧ key = CertInput.nil ∧ pf = CertInput.nil) :=
      fun h => hc h.1
    have h1' : ¬(cert = CertInput.nil ∧ key = CertInput.nil ∧
        CertInput.nil = CertInput.nil) := fun h => hc h.1
    have h2 : cert ≠ CertInput.nil ∧ key ≠ CertInput.nil := ⟨hc, hk⟩
    have hpm : pemMaterial env w.MchId cert key pf
        = pemMaterial env w.MchId cert key CertInput.nil := by
      unfold pemMaterial
      rw [if_pos h2, if_pos h2]
    constructor
    · unfold checkCertFilePath
      rw [if_neg h1, if_neg h1', if_pos h2, if_pos h2]
    · unfold addCertConfig
      rw [if_neg h1, if_neg h1']
      unfold addCertConfigLoad
      rw [hpm]
  · intro hpf hck
    have a1 : ¬(cert = CertInput.nil ∧ key = CertInput.nil ∧ pf = CertInput.nil) :=
      fun h => hpf h.2.2
    have a1' : ¬(CertInput.nil = CertInput.nil ∧ CertInput.nil = CertInput.nil ∧
        pf = CertInput.nil) := fun h => hpf h.2.2
    have a2 : ¬(cert ≠ CertInput.nil ∧ key ≠ CertInput.nil) :=
      fun h => hck.elim h.1 h.2
    have a3 : ¬(CertInput.nil ≠ CertInput.nil ∧ CertInput.nil ≠ CertInput.nil) :=
      fun h => h.1 rfl
    have hpm : pemMaterial env w.MchId cert key pf
        = pemMaterial env w.MchId CertInput.nil CertInput.nil pf := by
      unfold pemMaterial
      rw [if_neg a2, if_neg a3, if_pos hpf]
    constructor
    · unfold checkCertFilePath
      rw [if_neg a1, if_neg a1', if_neg a2, if_neg a3, if_pos hpf]
    · unfold addCertConfig
      rw [if_neg a1, if_neg a1']
      unfold addCertConfigLoad
      rw [hpm]

/-- Witness for C1 (amended): a PEM pair of file paths with PKCS#12
bytes behaves as with no PKCS#12. -/
theorem pkcs12_with_pem_not_rejected_witness :
    (checkCertFilePath (CertInput.str "c") (CertInput.str "k") (CertInput.bytes [3])
       = checkCertFilePath (CertInput.str "c") (CertInput.str "k") CertInput.nil) ∧
    (addCertConfig emptyFs w0 (CertInput.str "c") (CertInput.str "k") (CertInput.bytes [3])
       = addCertConfig emptyFs w0 (CertInput.str "c") (CertInput.str "k") CertInput.nil) :=
  (pkcs12_with_pem_not_rejected emptyFs w0 (CertInput.str "c") (CertInput.str "k")
    (CertInput.bytes [3])).1 (by decide) (by decide)

/-- C2 evaluated at the failing input: the cert file read fails, the
key file read succeeds, so the shared `err` variable of the source is
overwritten to nil by the successful key read; the cert read error is
lost and `addCertConfig` returns the unrelated configuration error of
line 143 instead of an `IOError` wrapping the read failure. -/
theorem cert_read_error_shadowed_by_key_read :
    certReadFailFs.readFile "cert.pem"
      = Except.error (GoErr.simple "open cert.pem: no such file or directory") ∧
    certReadFailFs.readFile "key.pem" = Except.ok [1] ∧
    addCertConfig certReadFailFs w0 (CertInput.str "cert.pem") (CertInput.str "key.pem")
        CertInput.nil
      = Except.error (GoErr.simple "cert files must all nil or all not nil") ∧
    AddCertFilePath certReadFailFs w0 (CertInput.str "cert.pem") (CertInput.str "key.pem")
        CertInput.nil
      = (w0, some (GoErr.simple "cert files must all nil or all not nil")) :=
  ⟨rfl, rfl, rfl, rfl⟩

/-- C7 counterexample: exactly one PEM input (the key) is non-empty and
the cert is absent, yet — because a non-empty PKCS#12 accompanies them —
validation passes and a credential is loaded via the PKCS#12 path. -/
theorem single_pem_with_pkcs12_passes_check :
    checkCertFilePath CertInput.nil (CertInput.bytes [9]) (CertInput.bytes [8]) = none ∧
    AddCertFilePath okFs w0 CertInput.nil (CertInput.bytes [9]) (CertInput.bytes [8])
      = (⟨"m", some ⟨7⟩⟩, none) :=
  ⟨rfl, rfl⟩

/-- C7 (amended): when no PKCS#12 archive is supplied, any input where
exactly one of the PEM certificate and key is non-empty and the other
is absent or empty fails validation with a configuration error, and
`AddCertFilePath` surfaces exactly that error, leaving the client
unchanged. -/
theorem exactly_one_pem_rejected (cert key : CertInput)
    (h : (nonEmptyInput cert = true ∧ nonEmptyInput key = false) ∨
         (nonEmptyInput key = true ∧ nonEmptyInput cert = false)) :
    (checkCertFilePath cert key CertInput.nil).isSome = true ∧
    ∀ (env : FsEnv) (w : Client),
      (AddCertFilePath env w cert key CertInput.nil).1 = w ∧
      (AddCertFilePath env w cert key CertInput.nil).2
        = (checkCertFilePath cert key CertInput.nil).map GoErr.simple := by
  have hs : (checkCertFilePath cert key CertInput.nil).isSome = true := by
    rcases h with ⟨h1, h2⟩ | ⟨h1, h2⟩ <;> cases cert <;> cases key <;>
      simp_all [checkCertFilePath, checkOnePem, nonEmptyInput, NULL]
  refine ⟨hs, ?_⟩
  intro env w
  obtain ⟨m, hm⟩ := Option.isSome_iff_exists.mp hs
  unfold AddCertFilePath
  rw [hm]
  exact ⟨rfl, rfl⟩

/-- Witness for C7 (amended): non-empty cert bytes with an absent
key are rejected. -/
theorem exactly_one_pem_rejected_witness :
    (checkCertFilePath (CertInput.bytes [1]) CertInput.nil CertInput.nil).isSome = true :=
  (exactly_one_pem_rejected (CertInput.bytes [1]) CertInput.nil (by decide)).1

end Wechat
